import Mathlib

/-!
Verification of the session-to-room authorization and lifecycle logic of the
KIDOKOOL LMS marketplace.  The definitions below are a shallow embedding of the
server actions in `src/app/teacher/sessions/_components/CreateSessionForm.tsx`
(`createMeetingRoom`, `getMeetingRoom`, `updateSessionStatus`,
`generateAgoraToken`).  The Prisma `liveSession` table is modelled as a list of
records, `findUnique` as a scan by id, and `update` as a map over the records
with a matching id.  The authenticated caller (obtained in the source from the
ambient auth session) is passed explicitly as `callerId`; the wall clock
(`Date.now()` in milliseconds) is passed explicitly as `nowMs`/`now`.  Stateful
actions return the (possibly updated) store together with an `Except` result:
a thrown `Error` in the source corresponds to `Except.error`, and since every
throw in the source happens before the `prisma.liveSession.update` call, the
store component on the error paths is the unchanged input store.
-/

deriving instance DecidableEq for Except

namespace KidoKool

/-- Status values a live session record can hold: `scheduled`, `in_progress`,
`completed`. -/
inductive SessionStatus where
  | scheduled
  | in_progress
  | completed
deriving Repr, DecidableEq

/-- The parameter type of `updateSessionStatus`: the TypeScript union
`"in_progress" | "completed"`. -/
inductive UpdateStatus where
  | in_progress
  | completed
deriving Repr, DecidableEq

/-- One `liveSession` record, with the relations (`teacher`, `teacher.user`,
`student`) flattened into the fields the server actions actually read.
`teacherUserId` is `liveSession.teacher.userId`, `teacherName` is
`liveSession.teacher.user.name`, `studentName` is `liveSession.student?.name`.
The `studentId` and the nullable display fields are `Option`s because the
student relation is optional in the source (`liveSession.student?.name`). -/
structure LiveSession where
  id : String
  teacherUserId : String
  teacherId : String
  studentId : Option String
  teacherName : String
  studentName : Option String
  title : Option String
  scheduledAt : Option Nat
  duration : Nat
  status : SessionStatus
  actualStartTime : Option Nat
  actualEndTime : Option Nat
deriving Repr, DecidableEq

/-- The persisted session table. -/
def SessionStore := List LiveSession

instance : DecidableEq SessionStore := by
  unfold SessionStore
  infer_instance

/-- Model of `prisma.liveSession.findUnique({ where: { id: sessionId } })`. -/
def findUnique (store : SessionStore) (sessionId : String) : Option LiveSession :=
  store.find? (fun s => s.id == sessionId)

/-- Model of `prisma.liveSession.update({ where: { id: sessionId }, data })`:
apply the field update `f` to every record whose id matches. -/
def updateWhere (store : SessionStore) (sessionId : String)
    (f : LiveSession → LiveSession) : SessionStore :=
  store.map (fun s => if s.id == sessionId then f s else s)

/-- The errors thrown by the server actions: `"Session not found"`,
`"Unauthorized to access this session"`, `"Video service configuration
error"`. -/
inductive SessionError where
  | notFound
  | unauthorized
  | configError
deriving Repr, DecidableEq

/-- JavaScript truthiness of an optional string: `undefined`/`null` and the
empty string are falsy (used for `liveSession.title || "Live Session"` and the
`!appId` checks). -/
def jsFalsyString (v : Option String) : Bool :=
  match v with
  | none => true
  | some t => t == ""

/-- JavaScript `v || fallback` on an optional string. -/
def jsOrString (v : Option String) (fallback : String) : String :=
  match v with
  | none => fallback
  | some t => if t == "" then fallback else t

/-- Return value of `updateSessionStatus`: the object `{ success: true }`. -/
structure UpdateResult where
  success : Bool
deriving Repr, DecidableEq

/-- The `data` object of the `prisma.liveSession.update` call in
`updateSessionStatus`: writes the requested status unconditionally, and
additionally `actualStartTime: new Date()` when the target is `in_progress`,
`actualEndTime: new Date()` when the target is `completed`. -/
def applyStatusData (now : Nat) (status : UpdateStatus) (s : LiveSession) :
    LiveSession :=
  match status with
  | .in_progress => { s with status := .in_progress, actualStartTime := some now }
  | .completed => { s with status := .completed, actualEndTime := some now }

/-- Embedding of `updateSessionStatus(sessionId, status)`: look the session up,
throw `notFound` if absent, throw `unauthorized` if the caller is neither
`teacher.userId` nor `studentId`, otherwise write the requested status and the
corresponding timestamp and return `{ success: true }`.  The source performs no
check of the current status before writing. -/
def updateSessionStatus (store : SessionStore) (callerId sessionId : String)
    (status : UpdateStatus) (now : Nat) :
    SessionStore × Except SessionError UpdateResult :=
  match findUnique store sessionId with
  | none => (store, .error .notFound)
  | some s =>
    let isTeacher := s.teacherUserId == callerId
    let isStudent := s.studentId == some callerId
    if !isTeacher && !isStudent then
      (store, .error .unauthorized)
    else
      (updateWhere store sessionId (applyStatusData now status), .ok ⟨true⟩)

/-- Return value of `getMeetingRoom`. -/
structure RoomInfo where
  sessionId : String
  roomId : String
  isTeacher : Bool
  isStudent : Bool
  teacherName : String
  studentName : String
  sessionTitle : String
  scheduledTime : Option Nat
  duration : Nat
  status : SessionStatus
deriving Repr, DecidableEq

/-- Embedding of `getMeetingRoom(sessionId)`: look the session up, throw
`notFound` if absent, throw `unauthorized` if the caller is neither party,
otherwise return the room details with `roomId` set to
`` `room_${sessionId}` `` — a pure function of the session id.  The action
performs no write. -/
def getMeetingRoom (store : SessionStore) (callerId sessionId : String) :
    Except SessionError RoomInfo :=
  match findUnique store sessionId with
  | none => .error .notFound
  | some s =>
    let isTeacher := s.teacherUserId == callerId
    let isStudent := s.studentId == some callerId
    if !isTeacher && !isStudent then
      .error .unauthorized
    else
      .ok { sessionId := s.id
            roomId := "room_" ++ sessionId
            isTeacher := isTeacher
            isStudent := isStudent
            teacherName := s.teacherName
            studentName := jsOrString s.studentName "Student"
            sessionTitle := jsOrString s.title "Live Session"
            scheduledTime := s.scheduledAt
            duration := s.duration
            status := s.status }

/-- Return value of `createMeetingRoom`: the `meetingData` object. -/
structure MeetingData where
  roomId : String
  sessionId : String
  teacherId : String
  studentId : Option String
  scheduledStart : Option Nat
  provider : String
  status : String
deriving Repr, DecidableEq

/-- Embedding of `createMeetingRoom(sessionId)`: same lookup and authorization
as the other actions, then builds the meeting data with `roomId` set to
`` `room_${sessionId}_${Date.now()}` `` — the call time is embedded in the
identifier.  The subsequent `prisma.liveSession.update` call passes an empty
`data` object (the room fields are commented out in the source), so the matched
records are left as they are. -/
def createMeetingRoom (store : SessionStore) (callerId sessionId : String)
    (nowMs : Nat) : SessionStore × Except SessionError MeetingData :=
  match findUnique store sessionId with
  | none => (store, .error .notFound)
  | some s =>
    let isTeacher := s.teacherUserId == callerId
    let isStudent := s.studentId == some callerId
    if !isTeacher && !isStudent then
      (store, .error .unauthorized)
    else
      let meetingRoomId := "room_" ++ sessionId ++ "_" ++ toString nowMs
      (updateWhere store sessionId (fun r => r),
       .ok { roomId := meetingRoomId
             sessionId := sessionId
             teacherId := s.teacherId
             studentId := s.studentId
             scheduledStart := s.scheduledAt
             provider := "agora"
             status := "scheduled" })

/-- The Agora signing configuration read from the environment:
`NEXT_PUBLIC_AGORA_APP_ID` and `AGORA_APP_CERTIFICATE`, each possibly unset. -/
structure AgoraEnv where
  appId : Option String
  appCertificate : Option String
deriving Repr, DecidableEq

/-- `RtcRole.PUBLISHER` of the `agora-access-token` package. -/
def publisherRole : Nat := 1

/-- The credential produced by `RtcTokenBuilder.buildTokenWithAccount`,
modelled abstractly as the tuple of inputs the external signing scheme is
scoped to. -/
structure AgoraToken where
  appId : String
  appCertificate : String
  channelName : String
  account : String
  role : Nat
  privilegeExpiredTs : Nat
deriving Repr, DecidableEq

/-- Abstract model of `RtcTokenBuilder.buildTokenWithAccount`: the external
signing call, a pure function of its six arguments. -/
def buildTokenWithAccount (appId appCertificate channelName account : String)
    (role : Nat) (privilegeExpiredTs : Nat) : AgoraToken :=
  { appId := appId
    appCertificate := appCertificate
    channelName := channelName
    account := account
    role := role
    privilegeExpiredTs := privilegeExpiredTs }

/-- Return value of `generateAgoraToken`. -/
structure TokenResponse where
  token : AgoraToken
  channelName : String
  userId : String
  appId : String
deriving Repr, DecidableEq

/-- Embedding of `generateAgoraToken(channelName, userId)`: throws the
configuration error when `!appId || !appCertificate` (unset or empty string),
otherwise computes `privilegeExpiredTs = floor(nowMs / 1000) + 3600` and mints
a token via the external builder.  The session store is an ambient argument —
the source body contains no Prisma call, so the result never depends on it and
the store is returned unchanged. -/
def generateAgoraToken (store : SessionStore) (env : AgoraEnv)
    (channelName userId : String) (nowMs : Nat) :
    SessionStore × Except SessionError TokenResponse :=
  if jsFalsyString env.appId || jsFalsyString env.appCertificate then
    (store, .error .configError)
  else
    let appId := env.appId.getD ""
    let appCertificate := env.appCertificate.getD ""
    let expirationTimeInSeconds := 3600
    let currentTimestamp := nowMs / 1000
    let privilegeExpiredTs := currentTimestamp + expirationTimeInSeconds
    let token := buildTokenWithAccount appId appCertificate channelName userId
      publisherRole privilegeExpiredTs
    (store, .ok { token := token
                  channelName := channelName
                  userId := userId
                  appId := appId })

/-- A concrete session record used as the test fixture: tutor user `T`,
learner `L`. -/
def demoSession : LiveSession :=
  { id := "s1"
    teacherUserId := "T"
    teacherId := "tp1"
    studentId := some "L"
    teacherName := "Tina"
    studentName := some "Leo"
    title := some "Algebra"
    scheduledAt := some 100
    duration := 60
    status := .scheduled
    actualStartTime := none
    actualEndTime := none }

/-- A one-session store with the fixture session still `scheduled`. -/
def demoStoreScheduled : SessionStore := [demoSession]

/-- A one-session store with the fixture session `in_progress`, started at
time 10. -/
def demoStoreInProgress : SessionStore :=
  [{ demoSession with status := .in_progress, actualStartTime := some 10 }]

/-- A one-session store with the fixture session `completed` (started at 10,
ended at 20). -/
def demoStoreCompleted : SessionStore :=
  [{ demoSession with
      status := .completed
      actualStartTime := some 10
      actualEndTime := some 20 }]

/-! Helper lemmas about the embedding. -/

/-- The status-update data never touches the record id. -/
theorem applyStatusData_id (now : Nat) (status : UpdateStatus) (s : LiveSession) :
    (applyStatusData now status s).id = s.id := by
  cases status <;> rfl

/-- The status-update data never touches the teacher identity. -/
theorem applyStatusData_teacherUserId (now : Nat) (status : UpdateStatus)
    (s : LiveSession) :
    (applyStatusData now status s).teacherUserId = s.teacherUserId := by
  cases status <;> rfl

/-- The status-update data never touches the student identity. -/
theorem applyStatusData_studentId (now : Nat) (status : UpdateStatus)
    (s : LiveSession) :
    (applyStatusData now status s).studentId = s.studentId := by
  cases status <;> rfl

/-- Looking a record up after an id-preserving update is the update of the
looked-up record. -/
theorem findUnique_updateWhere (st : SessionStore) (sid : String)
    (f : LiveSession → LiveSession) (hf : ∀ s, (f s).id = s.id) :
    findUnique (updateWhere st sid f) sid = (findUnique st sid).map f := by
  induction st with
  | nil => rfl
  | cons a t ih =>
    unfold findUnique updateWhere at ih ⊢
    by_cases h : (a.id == sid) = true
    · rw [List.map_cons, if_pos h, List.find?_cons_of_pos, List.find?_cons_of_pos]
      · rfl
      · exact h
      · rw [hf a]; exact h
    · rw [List.map_cons, if_neg h, List.find?_cons_of_neg, List.find?_cons_of_neg]
      · exact ih
      · exact h
      · exact h

/-- An absent session id makes `updateSessionStatus` throw `notFound` and leave
the store untouched. -/
theorem updateSessionStatus_notFound (st : SessionStore) (c sid : String)
    (status : UpdateStatus) (now : Nat) (h : findUnique st sid = none) :
    updateSessionStatus st c sid status now = (st, .error .notFound) := by
  unfold updateSessionStatus
  rw [h]

/-- A caller who is neither party makes `updateSessionStatus` throw
`unauthorized` and leave the store untouched. -/
theorem updateSessionStatus_nonparty (st : SessionStore) (c sid : String)
    (status : UpdateStatus) (now : Nat) (s : LiveSession)
    (hfind : findUnique st sid = some s)
    (ht : s.teacherUserId ≠ c) (hs : s.studentId ≠ some c) :
    updateSessionStatus st c sid status now = (st, .error .unauthorized) := by
  unfold updateSessionStatus
  rw [hfind]
  have hguard : (!(s.teacherUserId == c) && !(s.studentId == some c)) = true := by
    simp [ht, hs]
  simp only [hguard, if_true]

/-- For a found session and a caller who is one of the two parties,
`updateSessionStatus` writes the requested status data unconditionally and
returns `{ success: true }` — whatever the current status is. -/
theorem updateSessionStatus_party (st : SessionStore) (c sid : String)
    (status : UpdateStatus) (now : Nat) (s : LiveSession)
    (hfind : findUnique st sid = some s)
    (hparty : s.teacherUserId = c ∨ s.studentId = some c) :
    updateSessionStatus st c sid status now =
      (updateWhere st sid (applyStatusData now status), .ok ⟨true⟩) := by
  unfold updateSessionStatus
  rw [hfind]
  have hguard : (!(s.teacherUserId == c) && !(s.studentId == some c)) = false := by
    rcases hparty with h | h <;> simp [h]
  simp only [hguard, Bool.false_eq_true, if_false]

/-- Every successful `getMeetingRoom` result comes from a found session, has
the purely id-derived room id, and carries the two role flags computed from
that session, at least one of which is set. -/
theorem getMeetingRoom_ok (st : SessionStore) (c sid : String) (r : RoomInfo)
    (h : getMeetingRoom st c sid = .ok r) :
    ∃ s, findUnique st sid = some s ∧
      r.roomId = "room_" ++ sid ∧
      r.isTeacher = (s.teacherUserId == c) ∧
      r.isStudent = (s.studentId == some c) ∧
      (r.isTeacher = true ∨ r.isStudent = true) := by
  unfold getMeetingRoom at h
  cases hfind : findUnique st sid with
  | none =>
    rw [hfind] at h
    exact absurd h (by simp)
  | some s =>
    rw [hfind] at h
    simp only at h
    by_cases hg : (!(s.teacherUserId == c) && !(s.studentId == some c)) = true
    · rw [if_pos hg] at h
      exact absurd h (by simp)
    · rw [if_neg hg] at h
      injection h with h
      subst h
      refine ⟨s, rfl, rfl, rfl, rfl, ?_⟩
      simp only
      cases ha : s.teacherUserId == c with
      | true => exact Or.inl rfl
      | false =>
        cases hb : s.studentId == some c with
        | true => exact Or.inr rfl
        | false =>
          rw [ha, hb] at hg
          exact absurd rfl hg

/-! Claim theorems. -/

/-- C6: `generateAgoraToken` performs no authentication, authorization, or
session lookup: its result is independent of the contents of the session
store, and it neither reads nor writes the session records (the store is
returned unchanged). -/
theorem generateAgoraToken_independent_of_store :
    ∀ (st₁ st₂ : SessionStore) (env : AgoraEnv) (ch uid : String) (nowMs : Nat),
      (generateAgoraToken st₁ env ch uid nowMs).2 =
        (generateAgoraToken st₂ env ch uid nowMs).2 ∧
      (generateAgoraToken st₁ env ch uid nowMs).1 = st₁ := by
  intro st₁ st₂ env ch uid nowMs
  by_cases h : (jsFalsyString env.appId || jsFalsyString env.appCertificate) = true
  · constructor <;> simp [generateAgoraToken, h]
  · constructor <;> simp [generateAgoraToken, h]

/-- The JS falsiness test on an optional string holds exactly for an unset
variable or the empty string. -/
theorem jsFalsyString_eq_true (v : Option String) :
    jsFalsyString v = true ↔ (v = none ∨ v = some "") := by
  cases v with
  | none => simp [jsFalsyString]
  | some t => simp [jsFalsyString]

/-- C8: token issuance fails with the configuration error exactly when the
signing material is unavailable (app id or certificate unset or empty), and
the configuration error is the only error the operation produces; in the error
case no credential is issued (the result carries none). -/
theorem generateAgoraToken_configError_iff :
    ∀ (st : SessionStore) (env : AgoraEnv) (ch uid : String) (nowMs : Nat),
      ((generateAgoraToken st env ch uid nowMs).2 = .error .configError ↔
        (env.appId = none ∨ env.appId = some "" ∨
          env.appCertificate = none ∨ env.appCertificate = some "")) ∧
      (∀ e, (generateAgoraToken st env ch uid nowMs).2 = .error e →
        e = .configError) := by
  intro st env ch uid nowMs
  have hcond : (jsFalsyString env.appId || jsFalsyString env.appCertificate) = true ↔
      (env.appId = none ∨ env.appId = some "" ∨
        env.appCertificate = none ∨ env.appCertificate = some "") := by
    rw [Bool.or_eq_true, jsFalsyString_eq_true, jsFalsyString_eq_true]
    tauto
  by_cases h : (jsFalsyString env.appId || jsFalsyString env.appCertificate) = true
  · refine ⟨?_, ?_⟩
    · simp only [generateAgoraToken, h, if_true]
      simpa using hcond.mp h
    · intro e he
      simp only [generateAgoraToken, h, if_true] at he
      injection he with he
      exact he.symm
  · refine ⟨?_, ?_⟩
    · simp only [generateAgoraToken, h, Bool.false_eq_true, if_false]
      constructor
      · intro he
        exact absurd he (by simp)
      · intro hr
        exact absurd (hcond.mpr hr) h
    · intro e he
      simp only [generateAgoraToken, h, Bool.false_eq_true, if_false] at he
      exact absurd he (by simp)

/-- C8 witness: with the app id unset, issuance fails with the configuration
error. -/
theorem generateAgoraToken_configError_iff_witness :
    (generateAgoraToken ([] : SessionStore) ⟨none, some "cert"⟩ "ch" "u" 0).2 =
      .error .configError :=
  ((generateAgoraToken_configError_iff [] ⟨none, some "cert"⟩ "ch" "u" 0).1).mpr
    (Or.inl rfl)

/-- C9: every issued credential expires exactly 3600 seconds after the
issuance second (`floor(nowMs / 1000) + 3600`), and issuance persists nothing
(the session store is returned unchanged). -/
theorem generateAgoraToken_expiry :
    ∀ (st : SessionStore) (env : AgoraEnv) (ch uid : String) (nowMs : Nat)
      (resp : TokenResponse),
      (generateAgoraToken st env ch uid nowMs).2 = .ok resp →
      resp.token.privilegeExpiredTs = nowMs / 1000 + 3600 ∧
      (generateAgoraToken st env ch uid nowMs).1 = st := by
  intro st env ch uid nowMs resp h
  by_cases hc : (jsFalsyString env.appId || jsFalsyString env.appCertificate) = true
  · simp only [generateAgoraToken, hc, if_true] at h
    exact absurd h (by simp)
  · constructor
    · simp only [generateAgoraToken, hc, Bool.false_eq_true, if_false] at h
      injection h with h
      subst h
      rfl
    · simp only [generateAgoraToken, hc, Bool.false_eq_true, if_false]

/-- A concrete token response used to witness the expiry law at issue time
5000 ms. -/
def demoTokenResponse : TokenResponse :=
  { token := { appId := "a"
               appCertificate := "c"
               channelName := "ch"
               account := "u"
               role := 1
               privilegeExpiredTs := 3605 }
    channelName := "ch"
    userId := "u"
    appId := "a" }

/-- C9 witness: at issuance time 5000 ms the minted token expires at second
3605 = 5000 / 1000 + 3600, and the (empty) store is unchanged. -/
theorem generateAgoraToken_expiry_witness :
    demoTokenResponse.token.privilegeExpiredTs = 5000 / 1000 + 3600 ∧
    (generateAgoraToken ([] : SessionStore) ⟨some "a", some "c"⟩ "ch" "u" 5000).1 =
      ([] : SessionStore) :=
  generateAgoraToken_expiry [] ⟨some "a", some "c"⟩ "ch" "u" 5000
    demoTokenResponse rfl

/-- C10: whenever `getMeetingRoom` returns successfully, the returned flags
satisfy `isTeacher` or `isStudent` — a result with both flags false is
unreachable. -/
theorem getMeetingRoom_success_flags :
    ∀ (st : SessionStore) (c sid : String) (r : RoomInfo),
      getMeetingRoom st c sid = .ok r →
      r.isTeacher = true ∨ r.isStudent = true := by
  intro st c sid r h
  obtain ⟨s, _, _, _, _, hflag⟩ := getMeetingRoom_ok st c sid r h
  exact hflag

/-- The room info the tutor `T` gets for the fixture session. -/
def demoRoomInfoT : RoomInfo :=
  { sessionId := "s1"
    roomId := "room_s1"
    isTeacher := true
    isStudent := false
    teacherName := "Tina"
    studentName := "Leo"
    sessionTitle := "Algebra"
    scheduledTime := some 100
    duration := 60
    status := .scheduled }

/-- C10 witness: the tutor's successful room lookup on the fixture store has
the teacher flag set. -/
theorem getMeetingRoom_success_flags_witness :
    demoRoomInfoT.isTeacher = true ∨ demoRoomInfoT.isStudent = true :=
  getMeetingRoom_success_flags demoStoreScheduled "T" "s1" demoRoomInfoT (by decide)

/-- Every successful `createMeetingRoom` result carries a room id that embeds
the call time: `` `room_${sessionId}_${Date.now()}` ``. -/
theorem createMeetingRoom_ok (st : SessionStore) (c sid : String) (nowMs : Nat)
    (m : MeetingData) (h : (createMeetingRoom st c sid nowMs).2 = .ok m) :
    m.roomId = "room_" ++ sid ++ "_" ++ toString nowMs := by
  unfold createMeetingRoom at h
  cases hfind : findUnique st sid with
  | none =>
    rw [hfind] at h
    exact absurd h (by simp)
  | some s =>
    rw [hfind] at h
    simp only at h
    by_cases hg : (!(s.teacherUserId == c) && !(s.studentId == some c)) = true
    · rw [if_pos hg] at h
      exact absurd h (by simp)
    · rw [if_neg hg] at h
      simp only at h
      injection h with h
      subst h
      rfl

/-- The channel id a `createMeetingRoom` call returns, when it succeeds. -/
def createRoomId (store : SessionStore) (callerId sessionId : String)
    (nowMs : Nat) : Option String :=
  match (createMeetingRoom store callerId sessionId nowMs).2 with
  | .ok m => some m.roomId
  | .error _ => none

/-- The channel id a `getMeetingRoom` call returns, when it succeeds. -/
def getRoomId (store : SessionStore) (callerId sessionId : String) :
    Option String :=
  match getMeetingRoom store callerId sessionId with
  | .ok r => some r.roomId
  | .error _ => none

/-- C1 counterexample: on the fixture session, `createMeetingRoom` called at
times 1 and 2 returns two different channel ids (`room_s1_1`, `room_s1_2`),
and neither equals the channel id `room_s1` that `getMeetingRoom` returns —
the resolved channel id is not a pure function of the session id alone. -/
theorem roomId_not_pure_in_sessionId :
    createRoomId demoStoreScheduled "T" "s1" 1 = some "room_s1_1" ∧
    createRoomId demoStoreScheduled "T" "s1" 2 = some "room_s1_2" ∧
    getRoomId demoStoreScheduled "T" "s1" = some "room_s1" ∧
    createRoomId demoStoreScheduled "T" "s1" 1 ≠
      createRoomId demoStoreScheduled "T" "s1" 2 ∧
    createRoomId demoStoreScheduled "T" "s1" 1 ≠
      getRoomId demoStoreScheduled "T" "s1" := by
  decide

/-- C1 (amended): only `getMeetingRoom` resolves the channel purely: any two
successful `getMeetingRoom` calls for the same session id — whatever the
store, caller, or call time — return the identical channel id
`` `room_${sessionId}` ``; `createMeetingRoom`, by contrast, embeds the call
time `Date.now()` in its room id, so its result depends on when it is
called. -/
theorem getMeetingRoom_roomId_pure :
    (∀ (st₁ st₂ : SessionStore) (c₁ c₂ sid : String) (r₁ r₂ : RoomInfo),
        getMeetingRoom st₁ c₁ sid = .ok r₁ →
        getMeetingRoom st₂ c₂ sid = .ok r₂ →
        r₁.roomId = "room_" ++ sid ∧ r₁.roomId = r₂.roomId) ∧
    (∀ (st : SessionStore) (c sid : String) (nowMs : Nat) (m : MeetingData),
        (createMeetingRoom st c sid nowMs).2 = .ok m →
        m.roomId = "room_" ++ sid ++ "_" ++ toString nowMs) := by
  constructor
  · intro st₁ st₂ c₁ c₂ sid r₁ r₂ h₁ h₂
    obtain ⟨s₁, _, hr₁, _⟩ := getMeetingRoom_ok st₁ c₁ sid r₁ h₁
    obtain ⟨s₂, _, hr₂, _⟩ := getMeetingRoom_ok st₂ c₂ sid r₂ h₂
    exact ⟨hr₁, hr₁.trans hr₂.symm⟩
  · exact createMeetingRoom_ok

/-- The room info the learner `L` gets for the fixture session. -/
def demoRoomInfoL : RoomInfo :=
  { sessionId := "s1"
    roomId := "room_s1"
    isTeacher := false
    isStudent := true
    teacherName := "Tina"
    studentName := "Leo"
    sessionTitle := "Algebra"
    scheduledTime := some 100
    duration := 60
    status := .scheduled }

/-- The meeting data `createMeetingRoom` builds for the fixture session at
time 7. -/
def demoMeetingData : MeetingData :=
  { roomId := "room_s1_7"
    sessionId := "s1"
    teacherId := "tp1"
    studentId := some "L"
    scheduledStart := some 100
    provider := "agora"
    status := "scheduled" }

/-- C1 witness: tutor and learner resolve the identical channel `room_s1` on
the fixture store, while `createMeetingRoom` at time 7 mints `room_s1_7`. -/
theorem getMeetingRoom_roomId_pure_witness :
    (demoRoomInfoT.roomId = "room_" ++ "s1" ∧
      demoRoomInfoT.roomId = demoRoomInfoL.roomId) ∧
    demoMeetingData.roomId = "room_" ++ "s1" ++ "_" ++ toString (7 : Nat) :=
  ⟨getMeetingRoom_roomId_pure.1 demoStoreScheduled demoStoreScheduled "T" "L"
      "s1" demoRoomInfoT demoRoomInfoL (by decide) (by decide),
    getMeetingRoom_roomId_pure.2 demoStoreScheduled "T" "s1" 7 demoMeetingData
      (by decide)⟩

/-- C2 counterexample: on the completed fixture session, a join request
(target `in_progress`) by the tutor succeeds with `{ success: true }` and
changes the stored record, instead of failing with a session-ended error. -/
theorem join_after_completed_succeeds :
    (updateSessionStatus demoStoreCompleted "T" "s1" .in_progress 30).2 =
      .ok ⟨true⟩ ∧
    (updateSessionStatus demoStoreCompleted "T" "s1" .in_progress 30).1 ≠
      demoStoreCompleted := by
  decide

/-- C2 (amended): `updateSessionStatus` never inspects the current status: on
a completed session, a join request (target `in_progress`) by either valid
party succeeds with `{ success: true }` and rewrites the record with the
requested status data — no session-ended error exists in the code. -/
theorem join_from_completed_succeeds :
    ∀ (st : SessionStore) (c sid : String) (now : Nat) (s : LiveSession),
      findUnique st sid = some s →
      s.status = .completed →
      (s.teacherUserId = c ∨ s.studentId = some c) →
      updateSessionStatus st c sid .in_progress now =
        (updateWhere st sid (applyStatusData now .in_progress), .ok ⟨true⟩) := by
  intro st c sid now s hfind _ hparty
  exact updateSessionStatus_party st c sid .in_progress now s hfind hparty

/-- C2 witness: the amended behaviour on the completed fixture session, tutor
caller, call time 30. -/
theorem join_from_completed_succeeds_witness :
    updateSessionStatus demoStoreCompleted "T" "s1" .in_progress 30 =
      (updateWhere demoStoreCompleted "s1" (applyStatusData 30 .in_progress),
        .ok ⟨true⟩) :=
  join_from_completed_succeeds demoStoreCompleted "T" "s1" 30
    { demoSession with
        status := .completed
        actualStartTime := some 10
        actualEndTime := some 20 }
    (by decide) (by decide) (Or.inl rfl)

/-- C3 counterexample: the fixture session is already `in_progress` with
actual-start time 10; a second join by the learner at time 20 succeeds and
overwrites the actual-start time to 20 rather than leaving it unchanged. -/
theorem second_join_overwrites_start_time :
    (updateSessionStatus demoStoreInProgress "L" "s1" .in_progress 20).2 =
      .ok ⟨true⟩ ∧
    (findUnique demoStoreInProgress "s1").map LiveSession.actualStartTime =
      some (some 10) ∧
    (findUnique (updateSessionStatus demoStoreInProgress "L" "s1"
        .in_progress 20).1 "s1").map LiveSession.actualStartTime =
      some (some 20) := by
  decide

/-- C3 (amended): every successful join writes the actual-start timestamp
anew: a join on a session (whatever its current status, including already
`in_progress`) by a valid party succeeds, and afterwards the stored
actual-start time equals the time of that very call — a second join
overwrites the first timestamp instead of leaving it unchanged. -/
theorem join_overwrites_start_time_each_call :
    ∀ (st : SessionStore) (c sid : String) (now : Nat) (s : LiveSession),
      findUnique st sid = some s →
      (s.teacherUserId = c ∨ s.studentId = some c) →
      (updateSessionStatus st c sid .in_progress now).2 = .ok ⟨true⟩ ∧
      (findUnique (updateSessionStatus st c sid .in_progress now).1 sid).map
        LiveSession.actualStartTime = some (some now) := by
  intro st c sid now s hfind hparty
  rw [updateSessionStatus_party st c sid .in_progress now s hfind hparty]
  refine ⟨rfl, ?_⟩
  simp only
  rw [findUnique_updateWhere st sid _ (applyStatusData_id now .in_progress),
    hfind]
  rfl

/-- C3 witness: the amended behaviour on the in-progress fixture store,
learner caller, call time 20. -/
theorem join_overwrites_start_time_each_call_witness :
    (updateSessionStatus demoStoreInProgress "L" "s1" .in_progress 20).2 =
      .ok ⟨true⟩ ∧
    (findUnique (updateSessionStatus demoStoreInProgress "L" "s1"
        .in_progress 20).1 "s1").map LiveSession.actualStartTime =
      some (some 20) :=
  join_overwrites_start_time_each_call demoStoreInProgress "L" "s1" 20
    { demoSession with status := .in_progress, actualStartTime := some 10 }
    (by decide) (Or.inr rfl)

/-- C4 counterexample: the fixture session is stored as `completed`, yet an
update request by the learner moves it back to `in_progress` and succeeds —
a backward transition the code permits. -/
theorem completed_moves_back_to_in_progress :
    (findUnique demoStoreCompleted "s1").map LiveSession.status =
      some .completed ∧
    (updateSessionStatus demoStoreCompleted "L" "s1" .in_progress 40).2 =
      .ok ⟨true⟩ ∧
    (findUnique (updateSessionStatus demoStoreCompleted "L" "s1"
        .in_progress 40).1 "s1").map LiveSession.status =
      some .in_progress := by
  decide

/-- The session status a given update target writes. -/
def UpdateStatus.toSessionStatus : UpdateStatus → SessionStatus
  | .in_progress => .in_progress
  | .completed => .completed

/-- C4 (amended): `updateSessionStatus` enforces no ordering at all: for any
found session and valid party, the requested status is written
unconditionally, whatever the current status — so moving a completed session
back to `in_progress` is a reachable, successful operation and the status is
not monotonic. -/
theorem update_writes_requested_status :
    ∀ (st : SessionStore) (c sid : String) (status : UpdateStatus) (now : Nat)
      (s : LiveSession),
      findUnique st sid = some s →
      (s.teacherUserId = c ∨ s.studentId = some c) →
      (updateSessionStatus st c sid status now).2 = .ok ⟨true⟩ ∧
      (findUnique (updateSessionStatus st c sid status now).1 sid).map
        LiveSession.status = some status.toSessionStatus := by
  intro st c sid status now s hfind hparty
  rw [updateSessionStatus_party st c sid status now s hfind hparty]
  refine ⟨rfl, ?_⟩
  simp only
  rw [findUnique_updateWhere st sid _ (applyStatusData_id now status), hfind]
  cases status <;> rfl

/-- C4 witness: the amended behaviour moving the completed fixture session
back to `in_progress`, learner caller, call time 40. -/
theorem update_writes_requested_status_witness :
    (updateSessionStatus demoStoreCompleted "L" "s1" .in_progress 40).2 =
      .ok ⟨true⟩ ∧
    (findUnique (updateSessionStatus demoStoreCompleted "L" "s1"
        .in_progress 40).1 "s1").map LiveSession.status =
      some UpdateStatus.in_progress.toSessionStatus :=
  update_writes_requested_status demoStoreCompleted "L" "s1" .in_progress 40
    { demoSession with
        status := .completed
        actualStartTime := some 10
        actualEndTime := some 20 }
    (by decide) (Or.inr rfl)

/-- C5 counterexample: tutor `T` and learner `L` occupy different roles on the
fixture session, yet their successful join results are the very same value —
the return value of `updateSessionStatus` is `{ success: true }` and carries
no indication of which role the caller occupies. -/
theorem update_result_carries_no_role :
    (updateSessionStatus demoStoreScheduled "T" "s1" .in_progress 5).2 =
      (updateSessionStatus demoStoreScheduled "L" "s1" .in_progress 5).2 ∧
    demoSession.teacherUserId = "T" ∧
    demoSession.studentId = some "L" ∧
    ("T" : String) ≠ "L" := by
  decide

/-- C5 (amended): join and end requests by an identity that is neither party
fail — `notFound` when the session is absent, `unauthorized` otherwise — and
leave the store entirely unmutated; a successful join or end, however, returns
only `{ success: true }` with no role information — the caller's role flags
are returned by the room-info operation `getMeetingRoom` instead. -/
theorem join_end_authorization :
    (∀ (st : SessionStore) (c sid : String) (status : UpdateStatus) (now : Nat),
        findUnique st sid = none →
        updateSessionStatus st c sid status now = (st, .error .notFound)) ∧
    (∀ (st : SessionStore) (c sid : String) (status : UpdateStatus) (now : Nat)
        (s : LiveSession),
        findUnique st sid = some s →
        s.teacherUserId ≠ c →
        s.studentId ≠ some c →
        updateSessionStatus st c sid status now = (st, .error .unauthorized)) ∧
    (∀ (st : SessionStore) (c sid : String) (r : RoomInfo),
        getMeetingRoom st c sid = .ok r →
        ∃ s, findUnique st sid = some s ∧
          r.isTeacher = (s.teacherUserId == c) ∧
          r.isStudent = (s.studentId == some c)) := by
  refine ⟨updateSessionStatus_notFound, updateSessionStatus_nonparty, ?_⟩
  intro st c sid r h
  obtain ⟨s, hfind, _, hT, hS, _⟩ := getMeetingRoom_ok st c sid r h
  exact ⟨s, hfind, hT, hS⟩

/-- C5 witness: a stranger `X` gets `notFound` on a missing id and
`unauthorized` on the fixture session, both leaving the store as it was; the
tutor's room info carries the role flags computed from the record. -/
theorem join_end_authorization_witness :
    updateSessionStatus demoStoreScheduled "X" "nope" .in_progress 3 =
      (demoStoreScheduled, .error .notFound) ∧
    updateSessionStatus demoStoreScheduled "X" "s1" .completed 3 =
      (demoStoreScheduled, .error .unauthorized) ∧
    (∃ s, findUnique demoStoreScheduled "s1" = some s ∧
      demoRoomInfoT.isTeacher = (s.teacherUserId == "T") ∧
      demoRoomInfoT.isStudent = (s.studentId == some "T")) :=
  ⟨join_end_authorization.1 demoStoreScheduled "X" "nope" .in_progress 3
      (by decide),
    join_end_authorization.2.1 demoStoreScheduled "X" "s1" .completed 3
      demoSession (by decide) (by decide) (by decide),
    join_end_authorization.2.2 demoStoreScheduled "T" "s1" demoRoomInfoT
      (by decide)⟩

/-- C7 counterexample: ending the in-progress fixture session at time 21
records actual-end time 21; a second end call at time 33 also succeeds but
overwrites the actual-end time to 33 — the second call is not a no-op on the
timestamp. -/
theorem second_end_overwrites_end_time :
    (updateSessionStatus demoStoreInProgress "T" "s1" .completed 21).2 =
      .ok ⟨true⟩ ∧
    (findUnique (updateSessionStatus demoStoreInProgress "T" "s1"
        .completed 21).1 "s1").map LiveSession.actualEndTime =
      some (some 21) ∧
    (updateSessionStatus (updateSessionStatus demoStoreInProgress "T" "s1"
        .completed 21).1 "L" "s1" .completed 33).2 = .ok ⟨true⟩ ∧
    (findUnique (updateSessionStatus (updateSessionStatus demoStoreInProgress
        "T" "s1" .completed 21).1 "L" "s1" .completed 33).1 "s1").map
      LiveSession.actualEndTime = some (some 33) := by
  decide

/-- C7 (amended): calling end twice in succession succeeds both times, but
each successful end writes the actual-end timestamp, so after the second call
the stored actual-end time is the second call's time — the second call
overwrites the timestamp instead of being a no-op on it. -/
theorem end_twice_second_overwrites :
    ∀ (st : SessionStore) (c₁ c₂ sid : String) (n₁ n₂ : Nat) (s : LiveSession),
      findUnique st sid = some s →
      (s.teacherUserId = c₁ ∨ s.studentId = some c₁) →
      (s.teacherUserId = c₂ ∨ s.studentId = some c₂) →
      (updateSessionStatus st c₁ sid .completed n₁).2 = .ok ⟨true⟩ ∧
      (updateSessionStatus (updateSessionStatus st c₁ sid .completed n₁).1
        c₂ sid .completed n₂).2 = .ok ⟨true⟩ ∧
      (findUnique (updateSessionStatus (updateSessionStatus st c₁ sid
          .completed n₁).1 c₂ sid .completed n₂).1 sid).map
        LiveSession.actualEndTime = some (some n₂) := by
  intro st c₁ c₂ sid n₁ n₂ s hfind hp₁ hp₂
  have h₁ := updateSessionStatus_party st c₁ sid .completed n₁ s hfind hp₁
  have hfind₂ : findUnique (updateWhere st sid (applyStatusData n₁ .completed))
      sid = some (applyStatusData n₁ .completed s) := by
    rw [findUnique_updateWhere st sid _ (applyStatusData_id n₁ .completed),
      hfind]
    rfl
  have hp₂x : (applyStatusData n₁ .completed s).teacherUserId = c₂ ∨
      (applyStatusData n₁ .completed s).studentId = some c₂ := by
    rw [applyStatusData_teacherUserId, applyStatusData_studentId]
    exact hp₂
  have hst₁ : (updateSessionStatus st c₁ sid .completed n₁).1 =
      updateWhere st sid (applyStatusData n₁ .completed) := by
    rw [h₁]
  have h₂ : updateSessionStatus
      (updateSessionStatus st c₁ sid .completed n₁).1 c₂ sid .completed n₂ =
      (updateWhere (updateWhere st sid (applyStatusData n₁ .completed)) sid
        (applyStatusData n₂ .completed), .ok ⟨true⟩) := by
    rw [hst₁]
    exact updateSessionStatus_party _ c₂ sid .completed n₂ _ hfind₂ hp₂x
  refine ⟨?_, ?_, ?_⟩
  · rw [h₁]
  · rw [h₂]
  · rw [h₂]
    simp only
    rw [findUnique_updateWhere _ sid _ (applyStatusData_id n₂ .completed),
      hfind₂]
    rfl

/-- C7 witness: the amended behaviour on the in-progress fixture store, tutor
then learner ending at times 21 and 33. -/
theorem end_twice_second_overwrites_witness :
    (updateSessionStatus demoStoreInProgress "T" "s1" .completed 21).2 =
      .ok ⟨true⟩ ∧
    (updateSessionStatus (updateSessionStatus demoStoreInProgress "T" "s1"
        .completed 21).1 "L" "s1" .completed 33).2 = .ok ⟨true⟩ ∧
    (findUnique (updateSessionStatus (updateSessionStatus demoStoreInProgress
        "T" "s1" .completed 21).1 "L" "s1" .completed 33).1 "s1").map
      LiveSession.actualEndTime = some (some 33) :=
  end_twice_second_overwrites demoStoreInProgress "T" "L" "s1" 21 33
    { demoSession with status := .in_progress, actualStartTime := some 10 }
    (by decide) (Or.inl rfl) (Or.inr rfl)

end KidoKool
